import Mathlib

set_option linter.unusedVariables false

/-!
Verification development for the lopytrack payload decoders.

The repository contains three JavaScript payload decoders for LoRaWAN
network servers:

* layout A (src/unnamed/part_000): nine little-endian float32 fields
  (lat, lon, ax, ay, az, roll, pitch, count, missed), decoded with a
  float routine that has no NaN check;
* layout B (src/unnamed/part_001): ten little-endian float32 fields
  (time, lat, lon, height, hdop, ax, ay, az, roll, pitch), decoded with
  BytesToFloat32 which returns the sentinel null when the exponent
  field is 255, plus a big-endian BytesToInt16 helper and a TTN
  Decoder adapter;
* layout C (src/js/decode.js): a fixed/error GPS record of bit flags,
  multi-byte integers and fixed-point values, plus a TTN Decoder
  adapter.

JavaScript bitwise operators work on 32-bit integers.  We model every
bitwise intermediate by its unsigned 32-bit pattern (a natural number
below 2^32) and convert to a signed two's-complement value with
asInt32 exactly where the JavaScript value of a bitwise expression is
consumed as a number.  Out-of-range array reads (undefined) are
coerced to 0 by the bitwise operators, which jsByte models with a
default of 0.  All float arithmetic performed by the scripts is exact
in binary64 (a product of an integer below 2^24 with a power of two),
so values are modelled in ℚ.
-/

/-- Unsigned 32-bit pattern of a nonnegative integer, as JavaScript
ToUint32 produces for the operands and results of bitwise operators. -/
def u32 (n : ℕ) : ℕ := n % 4294967296

/-- Signed two's-complement reading of a 32-bit pattern: the numeric
value JavaScript gives to the result of a bitwise expression. -/
def asInt32 (u : ℕ) : ℤ :=
  if u % 4294967296 < 2147483648 then (u % 4294967296 : ℤ)
  else (u % 4294967296 : ℤ) - 4294967296

/-- JavaScript indexed read bytes[i] as consumed by bitwise operators:
an out-of-range read yields undefined, which ToInt32 coerces to 0. -/
def jsByte (l : List ℕ) (i : ℕ) : ℕ := l.getD i 0

/-- JavaScript Array.prototype.slice as the scripts call it with nonnegative bounds. -/
def jsSlice (l : List ℕ) (a b : ℕ) : List ℕ := (l.drop a).take (b - a)

/-- The 32-bit pattern assembled by the scripts' shared line
bits = bytes[3] shl 24 or bytes[2] shl 16 or bytes[1] shl 8 or bytes[0]
(least significant byte first). -/
def assembleLE32 (bytes : List ℕ) : ℕ :=
  u32 (jsByte bytes 3 <<< 24) ||| u32 (jsByte bytes 2 <<< 16) |||
    u32 (jsByte bytes 1 <<< 8) ||| u32 (jsByte bytes 0)

/-- Exponent field of an IEEE-754 binary32 pattern: bits 30 to 23. -/
def expField (p : ℕ) : ℕ := p / 2 ^ 23 % 256

/-- Mantissa field of an IEEE-754 binary32 pattern: bits 22 to 0. -/
def mantissaField (p : ℕ) : ℕ := p % 2 ^ 23

/-- Sign factor of an IEEE-754 binary32 pattern, written the way the
scripts test it: bit 31 clear means positive. -/
def signFactor (p : ℕ) : ℚ := if p >>> 31 = 0 then 1 else -1

/-- The four bytes of a 32-bit pattern in little-endian order. -/
def bytesOfLE32 (p : ℕ) : List ℕ :=
  [p % 256, p / 2 ^ 8 % 256, p / 2 ^ 16 % 256, p / 2 ^ 24 % 256]

/-- Modelled from the spec: the real value represented by an IEEE-754
binary32 bit pattern whose exponent field is not 255 (sign bit 31,
exponent bits 30 to 23, mantissa bits 22 to 0; subnormal when the
exponent field is 0, normal with implicit leading bit otherwise). -/
def floatValueOf (p : ℕ) : ℚ :=
  if expField p = 0 then
    signFactor p * (mantissaField p : ℚ) * (2 : ℚ) ^ (-(149 : ℤ))
  else
    signFactor p * ((2 ^ 23 + mantissaField p : ℕ) : ℚ) *
      (2 : ℚ) ^ ((expField p : ℤ) - 150)

/-- Modelled from the spec: big-endian assembly of a byte list, the
first byte contributing the most significant bits. -/
def beAssemble (l : List ℕ) : ℕ := l.foldl (fun acc b => acc * 256 + b) 0

namespace LayoutA

/-- bytesToFloat of src/unnamed/part_000: IEEE-754 binary32 decoding
with no NaN check, always producing a number. -/
def bytesToFloat (bytes : List ℕ) : ℚ :=
  let bits := assembleLE32 bytes
  let sign : ℚ := if bits >>> 31 = 0 then 1 else -1
  let e := (bits >>> 23) &&& 0xff
  let m := if e = 0 then (bits &&& 0x7fffff) <<< 1
           else (bits &&& 0x7fffff) ||| 0x800000
  sign * (m : ℚ) * (2 : ℚ) ^ ((e : ℤ) - 150)

/-- The sensor object returned by layout A's Decode. -/
structure Record where
  lat : ℚ
  lon : ℚ
  ax : ℚ
  ay : ℚ
  az : ℚ
  roll : ℚ
  pitch : ℚ
  count : ℚ
  missed : ℚ
deriving DecidableEq

/-- Decode of src/unnamed/part_000. -/
def Decode (port : ℕ) (bytes : List ℕ) : Record :=
  { lat := bytesToFloat (jsSlice bytes 0 4)
  , lon := bytesToFloat (jsSlice bytes 4 8)
  , ax := bytesToFloat (jsSlice bytes 8 12)
  , ay := bytesToFloat (jsSlice bytes 12 16)
  , az := bytesToFloat (jsSlice bytes 16 20)
  , roll := bytesToFloat (jsSlice bytes 20 24)
  , pitch := bytesToFloat (jsSlice bytes 24 28)
  , count := bytesToFloat (jsSlice bytes 28 32)
  , missed := bytesToFloat (jsSlice bytes 32 36) }

end LayoutA

namespace LayoutB

/-- BytesToInt16 of src/unnamed/part_001: big-endian assembly
b[0] shl 8 or b[1], read back as a signed 32-bit value. -/
def BytesToInt16 (b : List ℕ) : ℤ :=
  asInt32 (u32 (jsByte b 0 <<< 8) ||| u32 (jsByte b 1))

/-- BytesToFloat32 of src/unnamed/part_001: IEEE-754 binary32
decoding returning the sentinel null (none) when the exponent field is
255, since NaN is not representable in JSON. -/
def BytesToFloat32 (bytes : List ℕ) : Option ℚ :=
  let bits := assembleLE32 bytes
  let e := (bits >>> 23) &&& 0xff
  if e = 255 then none
  else
    let sign : ℚ := if bits >>> 31 = 0 then 1 else -1
    let m := if e = 0 then (bits &&& 0x7fffff) <<< 1
             else (bits &&& 0x7fffff) ||| 0x800000
    some (sign * (m : ℚ) * (2 : ℚ) ^ ((e : ℤ) - 150))

/-- The sensor object returned by layout B's Decode. -/
structure Record where
  time : Option ℚ
  lat : Option ℚ
  lon : Option ℚ
  height : Option ℚ
  hdop : Option ℚ
  ax : Option ℚ
  ay : Option ℚ
  az : Option ℚ
  roll : Option ℚ
  pitch : Option ℚ
deriving DecidableEq

/-- Decode of src/unnamed/part_001 (ChirpStack entry point). -/
def Decode (port : ℕ) (bytes : List ℕ) : Record :=
  { time := BytesToFloat32 (jsSlice bytes 0 4)
  , lat := BytesToFloat32 (jsSlice bytes 4 8)
  , lon := BytesToFloat32 (jsSlice bytes 8 12)
  , height := BytesToFloat32 (jsSlice bytes 12 16)
  , hdop := BytesToFloat32 (jsSlice bytes 16 20)
  , ax := BytesToFloat32 (jsSlice bytes 20 24)
  , ay := BytesToFloat32 (jsSlice bytes 24 28)
  , az := BytesToFloat32 (jsSlice bytes 28 32)
  , roll := BytesToFloat32 (jsSlice bytes 32 36)
  , pitch := BytesToFloat32 (jsSlice bytes 36 40) }

/-- Decoder of src/unnamed/part_001 (TTN adapter): swaps the argument
order and forwards to Decode. -/
def Decoder (bytes : List ℕ) (port : ℕ) : Record := Decode port bytes

end LayoutB

namespace LayoutC

/-- The record returned by the fixed/error GPS decoder of
src/js/decode.js. -/
structure Record where
  error : ℕ
  fixed : ℕ
  time : ℤ
  longitude : ℚ
  latitude : ℚ
  height : ℤ
  precision : ℚ
deriving DecidableEq

/-- Decode of src/js/decode.js (ChirpStack entry point), the
fixed/error GPS layout.  Every multi-byte chain of ors is a 32-bit
bitwise expression whose numeric value is its signed reading. -/
def Decode (port : ℕ) (bytes : List ℕ) : Record :=
  { error := u32 (jsByte bytes 0) &&& 0x01
  , fixed := (u32 (jsByte bytes 0) &&& 0x02) >>> 1
  , time := asInt32 (u32 (jsByte bytes 1) ||| u32 (jsByte bytes 2 <<< 8) |||
      u32 (jsByte bytes 3 <<< 16))
  , longitude := (asInt32 (u32 (jsByte bytes 5) ||| u32 (jsByte bytes 6 <<< 8) |||
      u32 (jsByte bytes 7 <<< 16) ||| u32 (jsByte bytes 8 <<< 24)) : ℚ) / 1000000
  , latitude := (asInt32 (u32 (jsByte bytes 9) ||| u32 (jsByte bytes 10 <<< 8) |||
      u32 (jsByte bytes 11 <<< 16) ||| u32 (jsByte bytes 12 <<< 24)) : ℚ) / 1000000
  , height := asInt32 (u32 (jsByte bytes 13) ||| u32 (jsByte bytes 14 <<< 8))
  , precision := (asInt32 (u32 (jsByte bytes 15) ||| u32 (jsByte bytes 16 <<< 8)) : ℚ) / 10 }

/-- Decoder of src/js/decode.js (TTN adapter): swaps the argument
order and forwards to Decode. -/
def Decoder (bytes : List ℕ) (port : ℕ) : Record := Decode port bytes

end LayoutC

/-! ### Arithmetic bridge lemmas -/

lemma u32_eq_of_lt {n : ℕ} (h : n < 4294967296) : u32 n = n := Nat.mod_eq_of_lt h

lemma or_eq_add_of_lt {i a b : ℕ} (h : b < 2 ^ i) : a * 2 ^ i ||| b = a * 2 ^ i + b := by
  rw [Nat.mul_comm a (2 ^ i)]
  exact (Nat.mul_add_lt_is_or h a).symm

lemma jsByte_lt_256 {l : List ℕ} (h : ∀ b ∈ l, b < 256) (i : ℕ) : jsByte l i < 256 := by
  unfold jsByte
  rcases Nat.lt_or_ge i l.length with hlt | hge
  · rw [List.getD_eq_getElem?_getD, List.getElem?_eq_getElem hlt]
    exact h _ (List.getElem_mem hlt)
  · rw [List.getD_eq_default _ _ hge]
    norm_num

lemma assembleLE32_eq (l : List ℕ) (h : ∀ b ∈ l, b < 256) :
    assembleLE32 l =
      jsByte l 3 * 2 ^ 24 + jsByte l 2 * 2 ^ 16 + jsByte l 1 * 2 ^ 8 + jsByte l 0 := by
  have h0 := jsByte_lt_256 h 0
  have h1 := jsByte_lt_256 h 1
  have h2 := jsByte_lt_256 h 2
  have h3 := jsByte_lt_256 h 3
  unfold assembleLE32 u32
  rw [Nat.shiftLeft_eq, Nat.shiftLeft_eq, Nat.shiftLeft_eq]
  rw [Nat.mod_eq_of_lt (by norm_num; omega), Nat.mod_eq_of_lt (by norm_num; omega),
    Nat.mod_eq_of_lt (by omega), Nat.mod_eq_of_lt (by omega)]
  rw [Nat.or_assoc, Nat.or_assoc]
  rw [or_eq_add_of_lt (show jsByte l 0 < 2 ^ 8 by norm_num; omega)]
  rw [or_eq_add_of_lt (show jsByte l 1 * 2 ^ 8 + jsByte l 0 < 2 ^ 16 by norm_num; omega)]
  rw [or_eq_add_of_lt
    (show jsByte l 2 * 2 ^ 16 + (jsByte l 1 * 2 ^ 8 + jsByte l 0) < 2 ^ 24 by norm_num; omega)]
  ring

lemma exp_extract (p : ℕ) : (p >>> 23) &&& 0xff = expField p := by
  rw [Nat.shiftRight_eq_div_pow]
  rw [show (0xff : ℕ) = 2 ^ 8 - 1 by norm_num, Nat.and_pow_two_sub_one_eq_mod]
  unfold expField
  norm_num

lemma mant_extract (p : ℕ) : p &&& 0x7fffff = mantissaField p := by
  rw [show (0x7fffff : ℕ) = 2 ^ 23 - 1 by norm_num, Nat.and_pow_two_sub_one_eq_mod]
  rfl

lemma mant_or_hidden (p : ℕ) : mantissaField p ||| 0x800000 = 2 ^ 23 + mantissaField p := by
  rw [Nat.or_comm]
  have hm : mantissaField p < 2 ^ 23 := Nat.mod_lt _ (by norm_num)
  have := or_eq_add_of_lt (a := 1) hm
  simpa using this

lemma asInt32_of_lt {u : ℕ} (h : u < 2147483648) : asInt32 u = u := by
  unfold asInt32
  rw [Nat.mod_eq_of_lt (by omega), if_pos h]
  omega

lemma asInt32_range (u : ℕ) : -2147483648 ≤ asInt32 u ∧ asInt32 u < 2147483648 := by
  unfold asInt32
  have := Nat.mod_lt u (show 0 < 4294967296 by norm_num)
  split <;> omega

lemma jsByte_append_zeros (l : List ℕ) (k i : ℕ) :
    jsByte (l ++ List.replicate k 0) i = jsByte l i := by
  unfold jsByte
  rw [List.getD_eq_getElem?_getD, List.getD_eq_getElem?_getD]
  rcases Nat.lt_or_ge i l.length with hlt | hge
  · rw [List.getElem?_append_left hlt]
  · rw [List.getElem?_append_right hge, List.getElem?_replicate,
      List.getElem?_eq_none hge]
    split <;> rfl

lemma jsByte_jsSlice (l : List ℕ) (a b i : ℕ) :
    jsByte (jsSlice l a b) i = if i < b - a then jsByte l (a + i) else 0 := by
  simp only [jsByte, jsSlice, List.getD_eq_getElem?_getD, List.getElem?_take,
    List.getElem?_drop]
  split <;> rfl

lemma assembleLE32_slice_append_zeros (l : List ℕ) (k a b : ℕ) :
    assembleLE32 (jsSlice (l ++ List.replicate k 0) a b) =
      assembleLE32 (jsSlice l a b) := by
  unfold assembleLE32
  simp only [jsByte_jsSlice, jsByte_append_zeros]

lemma or2_eq (x0 x1 : ℕ) (h0 : x0 < 256) (h1 : x1 < 256) :
    u32 x0 ||| u32 (x1 <<< 8) = x0 + x1 * 2 ^ 8 := by
  unfold u32
  rw [Nat.shiftLeft_eq]
  rw [Nat.mod_eq_of_lt (by omega), Nat.mod_eq_of_lt (by norm_num; omega)]
  rw [Nat.or_comm, or_eq_add_of_lt (show x0 < 2 ^ 8 by norm_num; omega)]
  ring

lemma or3_eq (x0 x1 x2 : ℕ) (h0 : x0 < 256) (h1 : x1 < 256) (h2 : x2 < 256) :
    u32 x0 ||| u32 (x1 <<< 8) ||| u32 (x2 <<< 16) = x0 + x1 * 2 ^ 8 + x2 * 2 ^ 16 := by
  rw [or2_eq x0 x1 h0 h1]
  unfold u32
  rw [Nat.shiftLeft_eq]
  rw [Nat.mod_eq_of_lt (by norm_num; omega)]
  rw [Nat.or_comm, or_eq_add_of_lt (show x0 + x1 * 2 ^ 8 < 2 ^ 16 by norm_num; omega)]
  ring

lemma or4_eq (x0 x1 x2 x3 : ℕ) (h0 : x0 < 256) (h1 : x1 < 256) (h2 : x2 < 256)
    (h3 : x3 < 256) :
    u32 x0 ||| u32 (x1 <<< 8) ||| u32 (x2 <<< 16) ||| u32 (x3 <<< 24) =
      x0 + x1 * 2 ^ 8 + x2 * 2 ^ 16 + x3 * 2 ^ 24 := by
  rw [or3_eq x0 x1 x2 h0 h1 h2]
  unfold u32
  rw [Nat.shiftLeft_eq]
  rw [Nat.mod_eq_of_lt (by norm_num; omega)]
  rw [Nat.or_comm, or_eq_add_of_lt
    (show x0 + x1 * 2 ^ 8 + x2 * 2 ^ 16 < 2 ^ 24 by norm_num; omega)]
  ring

/-! ### Characterization of the float routines -/

lemma bytesToFloat_eq (bytes : List ℕ) :
    LayoutA.bytesToFloat bytes =
      signFactor (assembleLE32 bytes) *
        ((if expField (assembleLE32 bytes) = 0 then
            mantissaField (assembleLE32 bytes) * 2
          else 2 ^ 23 + mantissaField (assembleLE32 bytes) : ℕ) : ℚ) *
        (2 : ℚ) ^ ((expField (assembleLE32 bytes) : ℤ) - 150) := by
  simp only [LayoutA.bytesToFloat, signFactor, exp_extract, mant_extract, mant_or_hidden,
    Nat.shiftLeft_eq, pow_one]

lemma BytesToFloat32_eq (bytes : List ℕ) :
    LayoutB.BytesToFloat32 bytes =
      if expField (assembleLE32 bytes) = 255 then none
      else some (LayoutA.bytesToFloat bytes) := by
  simp only [LayoutB.BytesToFloat32, LayoutA.bytesToFloat, exp_extract]

/-! ### Claim theorems: the float routines -/

/-- Claim C1, counterexample: at the NaN bit pattern 0x7FFFFFFF (bytes
0xFF 0xFF 0xFF 0x7F little-endian, exponent field 255), layout A's
float decoder returns the numeric value 16777215 * 2^105 rather than
the sentinel null, so the claim that every layout variant's float
routine returns null on exponent 255 is false. -/
theorem nan_pattern_layoutA_numeric :
    expField (assembleLE32 [255, 255, 255, 127]) = 255 ∧
      LayoutA.bytesToFloat [255, 255, 255, 127] = 16777215 * (2 : ℚ) ^ (105 : ℕ) := by
  have h255 : expField (assembleLE32 [255, 255, 255, 127]) = 255 := by decide
  refine ⟨h255, ?_⟩
  rw [bytesToFloat_eq, h255]
  rw [show mantissaField (assembleLE32 [255, 255, 255, 127]) = 8388607 from by decide]
  rw [show signFactor (assembleLE32 [255, 255, 255, 127]) = 1 from by
    unfold signFactor; rw [if_pos (by decide)]]
  rw [show ((255 : ℕ) : ℤ) - 150 = ((105 : ℕ) : ℤ) by norm_num, zpow_natCast]
  norm_num

/-- Claim C1 (amended): for every input whose assembled 32-bit pattern
has exponent field 255, layout B's BytesToFloat32 returns the sentinel
null; layout A's float decoder lacks the NaN check and returns a
numeric value instead. -/
theorem nan_sentinel_layoutB (bytes : List ℕ)
    (h : expField (assembleLE32 bytes) = 255) :
    LayoutB.BytesToFloat32 bytes = none := by
  rw [BytesToFloat32_eq, if_pos h]

/-- Witness for nan_sentinel_layoutB at the quiet-NaN bytes
0xFF 0xFF 0xFF 0x7F. -/
theorem nan_sentinel_layoutB_witness :
    LayoutB.BytesToFloat32 [255, 255, 255, 127] = none :=
  nan_sentinel_layoutB [255, 255, 255, 127] (by decide)

/-- Claim C2, counterexample: the pattern 0x7F800000 is plus infinity
(exponent field 255, mantissa 0), not a NaN, yet BytesToFloat32
returns the sentinel null on its little-endian bytes, so the claim
that every non-NaN pattern decodes to a number is false. -/
theorem infinity_pattern_returns_null :
    mantissaField 2139095040 = 0 ∧ expField 2139095040 = 255 ∧
      LayoutB.BytesToFloat32 (bytesOfLE32 2139095040) = none := by
  refine ⟨by decide, by decide, by decide⟩

/-- Claim C2 (amended): for every IEEE-754 binary32 bit pattern whose
exponent field is not 255 (all normals, subnormals and signed zeros),
decoding its four little-endian bytes with BytesToFloat32 yields
exactly the real value the pattern represents, never null. -/
theorem float32_roundtrip_finite (p : ℕ) (hp : p < 4294967296)
    (hexp : expField p ≠ 255) :
    LayoutB.BytesToFloat32 (bytesOfLE32 p) = some (floatValueOf p) := by
  have hassm : assembleLE32 (bytesOfLE32 p) = p := by
    rw [assembleLE32_eq]
    · simp only [bytesOfLE32, jsByte, List.getD]
      norm_num
      omega
    · intro b hb
      simp only [bytesOfLE32, List.mem_cons, List.not_mem_nil, or_false] at hb
      rcases hb with h | h | h | h <;> subst h <;> norm_num <;> omega
  rw [BytesToFloat32_eq, hassm, if_neg hexp, bytesToFloat_eq, hassm]
  unfold floatValueOf
  split_ifs with h0
  · rw [h0]
    push_cast
    rw [show (-(149 : ℤ)) = 1 + -150 by norm_num,
      zpow_add₀ (by norm_num : (2 : ℚ) ≠ 0)]
    norm_num
    ring_nf
  · push_cast
    ring_nf

/-- Witness for float32_roundtrip_finite at the pattern 0x3F800000,
whose bytes 0x00 0x00 0x80 0x3F decode to 1. -/
theorem float32_roundtrip_finite_witness :
    LayoutB.BytesToFloat32 (bytesOfLE32 1065353216) = some (floatValueOf 1065353216) :=
  float32_roundtrip_finite 1065353216 (by decide) (by decide)

/-- Claim C5: for every 4-byte input whose exponent field is 0, the
float routines return sign * (mantissa_bits * 2) * 2^(-150), which
equals sign * mantissa_bits * 2^(-149), the exact IEEE-754 subnormal
value; a zero mantissa gives zero, and the all-zero bytes decode
to 0 (as some 0 for BytesToFloat32). -/
theorem subnormal_formula (bytes : List ℕ)
    (hexp : expField (assembleLE32 bytes) = 0) :
    LayoutA.bytesToFloat bytes =
        signFactor (assembleLE32 bytes) *
          ((mantissaField (assembleLE32 bytes) * 2 : ℕ) : ℚ) * (2 : ℚ) ^ (-(150 : ℤ)) ∧
      LayoutB.BytesToFloat32 bytes = some (LayoutA.bytesToFloat bytes) ∧
      signFactor (assembleLE32 bytes) *
          ((mantissaField (assembleLE32 bytes) * 2 : ℕ) : ℚ) * (2 : ℚ) ^ (-(150 : ℤ)) =
        signFactor (assembleLE32 bytes) *
          (mantissaField (assembleLE32 bytes) : ℚ) * (2 : ℚ) ^ (-(149 : ℤ)) ∧
      (mantissaField (assembleLE32 bytes) = 0 → LayoutA.bytesToFloat bytes = 0) ∧
      LayoutA.bytesToFloat [0, 0, 0, 0] = 0 ∧
      LayoutB.BytesToFloat32 [0, 0, 0, 0] = some 0 := by
  have hz : LayoutA.bytesToFloat [0, 0, 0, 0] = 0 := by
    rw [bytesToFloat_eq]
    rw [show mantissaField (assembleLE32 [0, 0, 0, 0]) = 0 from by decide]
    rw [show expField (assembleLE32 [0, 0, 0, 0]) = 0 from by decide]
    norm_num
  refine ⟨?_, ?_, ?_, ?_, hz, ?_⟩
  · rw [bytesToFloat_eq, hexp]
    norm_num
  · rw [BytesToFloat32_eq, if_neg (by rw [hexp]; norm_num)]
  · rw [show (-(149 : ℤ)) = 1 + -150 by norm_num,
      zpow_add₀ (by norm_num : (2 : ℚ) ≠ 0)]
    push_cast
    ring
  · intro hm
    rw [bytesToFloat_eq, hexp, hm]
    norm_num
  · rw [BytesToFloat32_eq, if_neg (by norm_num [show expField (assembleLE32 [0, 0, 0, 0]) = 0 from by decide]), hz]

/-- Witness for subnormal_formula at the smallest positive subnormal,
bytes 0x01 0x00 0x00 0x00. -/
theorem subnormal_formula_witness :
    LayoutA.bytesToFloat [1, 0, 0, 0] =
      signFactor (assembleLE32 [1, 0, 0, 0]) *
        ((mantissaField (assembleLE32 [1, 0, 0, 0]) * 2 : ℕ) : ℚ) *
        (2 : ℚ) ^ (-(150 : ℤ)) :=
  (subnormal_formula [1, 0, 0, 0] (by decide)).1

/-- Claim C8: layout A's float decoder always returns a number; at an
exponent-255 pattern it returns sign * (2^23 + mantissa) * 2^(255-150),
whose magnitude is at least 2^128, so a layout A record never contains
the null sentinel. -/
theorem layoutA_never_null (bytes : List ℕ)
    (h : expField (assembleLE32 bytes) = 255) :
    LayoutA.bytesToFloat bytes =
        signFactor (assembleLE32 bytes) *
          ((2 ^ 23 + mantissaField (assembleLE32 bytes) : ℕ) : ℚ) *
          (2 : ℚ) ^ ((255 : ℤ) - 150) ∧
      (2 : ℚ) ^ (128 : ℕ) ≤ |LayoutA.bytesToFloat bytes| := by
  have hb : LayoutA.bytesToFloat bytes =
      signFactor (assembleLE32 bytes) *
        ((2 ^ 23 + mantissaField (assembleLE32 bytes) : ℕ) : ℚ) *
        (2 : ℚ) ^ ((255 : ℤ) - 150) := by
    rw [bytesToFloat_eq, h]
    norm_num
  refine ⟨hb, ?_⟩
  rw [hb, abs_mul, abs_mul]
  have hsign : |signFactor (assembleLE32 bytes)| = 1 := by
    unfold signFactor
    split <;> norm_num
  rw [hsign, one_mul]
  rw [show ((255 : ℤ) - 150) = ((105 : ℕ) : ℤ) by norm_num, zpow_natCast]
  rw [abs_of_nonneg (by positivity : (0 : ℚ) ≤ ((2 ^ 23 + mantissaField (assembleLE32 bytes) : ℕ) : ℚ)),
    abs_of_nonneg (by positivity : (0 : ℚ) ≤ (2 : ℚ) ^ (105 : ℕ))]
  have hm : (2 : ℚ) ^ (23 : ℕ) ≤ ((2 ^ 23 + mantissaField (assembleLE32 bytes) : ℕ) : ℚ) := by
    push_cast
    nlinarith [Nat.cast_nonneg (α := ℚ) (mantissaField (assembleLE32 bytes))]
  calc (2 : ℚ) ^ (128 : ℕ) = (2 : ℚ) ^ (23 : ℕ) * (2 : ℚ) ^ (105 : ℕ) := by norm_num
    _ ≤ ((2 ^ 23 + mantissaField (assembleLE32 bytes) : ℕ) : ℚ) * (2 : ℚ) ^ (105 : ℕ) :=
        mul_le_mul_of_nonneg_right hm (by positivity)

/-- Witness for layoutA_never_null at the plus-infinity pattern, bytes
0x00 0x00 0x80 0x7F. -/
theorem layoutA_never_null_witness :
    (2 : ℚ) ^ (128 : ℕ) ≤ |LayoutA.bytesToFloat [0, 0, 128, 127]| :=
  (layoutA_never_null [0, 0, 128, 127] (by decide)).2

/-! ### Layout C field decomposition -/

lemma DecodeC_fields (port : ℕ) (bytes : List ℕ) (h : ∀ b ∈ bytes, b < 256) :
    (LayoutC.Decode port bytes).time =
        ((jsByte bytes 1 + jsByte bytes 2 * 2 ^ 8 + jsByte bytes 3 * 2 ^ 16 : ℕ) : ℤ) ∧
      (LayoutC.Decode port bytes).longitude =
        ((asInt32 (jsByte bytes 5 + jsByte bytes 6 * 2 ^ 8 + jsByte bytes 7 * 2 ^ 16 +
          jsByte bytes 8 * 2 ^ 24) : ℤ) : ℚ) / 1000000 ∧
      (LayoutC.Decode port bytes).latitude =
        ((asInt32 (jsByte bytes 9 + jsByte bytes 10 * 2 ^ 8 + jsByte bytes 11 * 2 ^ 16 +
          jsByte bytes 12 * 2 ^ 24) : ℤ) : ℚ) / 1000000 ∧
      (LayoutC.Decode port bytes).height =
        ((jsByte bytes 13 + jsByte bytes 14 * 2 ^ 8 : ℕ) : ℤ) ∧
      (LayoutC.Decode port bytes).precision =
        ((jsByte bytes 15 + jsByte bytes 16 * 2 ^ 8 : ℕ) : ℚ) / 10 := by
  have hb : ∀ i, jsByte bytes i < 256 := fun i => jsByte_lt_256 h i
  refine ⟨?_, ?_, ?_, ?_, ?_⟩ <;> simp only [LayoutC.Decode]
  · rw [or3_eq _ _ _ (hb 1) (hb 2) (hb 3)]
    rw [asInt32_of_lt (by have := hb 1; have := hb 2; have := hb 3; norm_num; omega)]
  · rw [or4_eq _ _ _ _ (hb 5) (hb 6) (hb 7) (hb 8)]
  · rw [or4_eq _ _ _ _ (hb 9) (hb 10) (hb 11) (hb 12)]
  · rw [or2_eq _ _ (hb 13) (hb 14)]
    rw [asInt32_of_lt (by have := hb 13; have := hb 14; norm_num; omega)]
  · rw [or2_eq _ _ (hb 15) (hb 16)]
    rw [asInt32_of_lt (by have := hb 15; have := hb 16; norm_num; omega)]
    push_cast
    ring

/-! ### Claim theorems: layout C and the adapters -/

/-- Claim C3, counterexample: in the fixed/error GPS layout, a buffer
whose time-field bytes are 0x01 0x00 0x00 decodes time to 1, whereas
big-endian assembly of those bytes gives 65536: the first byte of the
field contributes the least significant bits, so the claim that the
fields are big-endian is false. -/
theorem layoutC_time_not_big_endian :
    (LayoutC.Decode 0 [0, 1, 0, 0, 0, 0, 0, 0, 0, 0, 0, 0, 0, 0, 0, 0, 0]).time = 1 ∧
      beAssemble (jsSlice [0, 1, 0, 0, 0, 0, 0, 0, 0, 0, 0, 0, 0, 0, 0, 0, 0] 1 4) = 65536 ∧
      (LayoutC.Decode 0 [0, 1, 0, 0, 0, 0, 0, 0, 0, 0, 0, 0, 0, 0, 0, 0, 0]).time ≠
        (beAssemble (jsSlice [0, 1, 0, 0, 0, 0, 0, 0, 0, 0, 0, 0, 0, 0, 0, 0, 0] 1 4) : ℤ) := by
  refine ⟨by decide, by decide, by decide⟩

/-- Claim C3 (amended): in the fixed/error GPS layout every multi-byte
field -- time, longitude, latitude, height, precision -- is assembled
in little-endian byte order: the first byte of each field contributes
the least significant bits of the assembled integer. -/
theorem layoutC_fields_little_endian (port : ℕ) (bytes : List ℕ)
    (h : ∀ b ∈ bytes, b < 256) :
    (LayoutC.Decode port bytes).time =
        ((jsByte bytes 1 + jsByte bytes 2 * 2 ^ 8 + jsByte bytes 3 * 2 ^ 16 : ℕ) : ℤ) ∧
      (LayoutC.Decode port bytes).longitude =
        ((asInt32 (jsByte bytes 5 + jsByte bytes 6 * 2 ^ 8 + jsByte bytes 7 * 2 ^ 16 +
          jsByte bytes 8 * 2 ^ 24) : ℤ) : ℚ) / 1000000 ∧
      (LayoutC.Decode port bytes).latitude =
        ((asInt32 (jsByte bytes 9 + jsByte bytes 10 * 2 ^ 8 + jsByte bytes 11 * 2 ^ 16 +
          jsByte bytes 12 * 2 ^ 24) : ℤ) : ℚ) / 1000000 ∧
      (LayoutC.Decode port bytes).height =
        ((jsByte bytes 13 + jsByte bytes 14 * 2 ^ 8 : ℕ) : ℤ) ∧
      (LayoutC.Decode port bytes).precision =
        ((jsByte bytes 15 + jsByte bytes 16 * 2 ^ 8 : ℕ) : ℚ) / 10 :=
  DecodeC_fields port bytes h

/-- Witness for layoutC_fields_little_endian on a concrete buffer. -/
theorem layoutC_fields_little_endian_witness :
    (LayoutC.Decode 0 [3, 1, 2, 3, 0, 4, 5, 6, 7, 8, 9, 10, 11, 12, 13, 14, 15]).time =
      ((jsByte [3, 1, 2, 3, 0, 4, 5, 6, 7, 8, 9, 10, 11, 12, 13, 14, 15] 1 +
        jsByte [3, 1, 2, 3, 0, 4, 5, 6, 7, 8, 9, 10, 11, 12, 13, 14, 15] 2 * 2 ^ 8 +
        jsByte [3, 1, 2, 3, 0, 4, 5, 6, 7, 8, 9, 10, 11, 12, 13, 14, 15] 3 * 2 ^ 16 : ℕ) : ℤ) :=
  (layoutC_fields_little_endian 0
    [3, 1, 2, 3, 0, 4, 5, 6, 7, 8, 9, 10, 11, 12, 13, 14, 15] (by decide)).1

/-- Claim C6: big-endian assembly of the pair b0 b1 (as BytesToInt16
does) equals little-endian assembly of the reversed pair (as layout
C's height field does at offsets 13 and 14). -/
theorem endian_symmetry_uint16 (b0 b1 : ℕ) (h0 : b0 < 256) (h1 : b1 < 256) :
    LayoutB.BytesToInt16 [b0, b1] =
      (LayoutC.Decode 0 (List.replicate 13 0 ++ [b1, b0])).height := by
  have e13 : jsByte (List.replicate 13 0 ++ [b1, b0]) 13 = b1 := by
    unfold jsByte
    rw [List.getD_eq_getElem?_getD, List.getElem?_append_right (by simp)]
    simp
  have e14 : jsByte (List.replicate 13 0 ++ [b1, b0]) 14 = b0 := by
    unfold jsByte
    rw [List.getD_eq_getElem?_getD, List.getElem?_append_right (by simp)]
    simp
  unfold LayoutB.BytesToInt16
  simp only [LayoutC.Decode, e13, e14]
  rw [show jsByte [b0, b1] 0 = b0 from rfl, show jsByte [b0, b1] 1 = b1 from rfl]
  rw [Nat.or_comm, or2_eq b1 b0 h1 h0]

/-- Witness for endian_symmetry_uint16 at the pair 0x12 0x34. -/
theorem endian_symmetry_uint16_witness :
    LayoutB.BytesToInt16 [18, 52] =
      (LayoutC.Decode 0 (List.replicate 13 0 ++ [52, 18])).height :=
  endian_symmetry_uint16 18 52 (by norm_num) (by norm_num)

/-- Claim C7: the TTN adapter Decoder(bytes, port) and the ChirpStack
entry point Decode(port, bytes) agree for every buffer, and the port
argument has no influence on the result, for both decoder variants
that define an adapter. -/
theorem adapter_port_ignored (bytes : List ℕ) (p q : ℕ) :
    LayoutB.Decoder bytes p = LayoutB.Decode q bytes ∧
      LayoutC.Decoder bytes p = LayoutC.Decode q bytes :=
  ⟨rfl, rfl⟩

/-- Claim C10: the fixed/error GPS decoder never reads byte 4, so two
buffers that agree everywhere except index 4 decode identically. -/
theorem layoutC_byte4_irrelevant (port : ℕ) (l1 l2 : List ℕ)
    (h : ∀ i, i ≠ 4 → jsByte l1 i = jsByte l2 i) :
    LayoutC.Decode port l1 = LayoutC.Decode port l2 := by
  have h0 := h 0 (by norm_num)
  have h1 := h 1 (by norm_num)
  have h2 := h 2 (by norm_num)
  have h3 := h 3 (by norm_num)
  have h5 := h 5 (by norm_num)
  have h6 := h 6 (by norm_num)
  have h7 := h 7 (by norm_num)
  have h8 := h 8 (by norm_num)
  have h9 := h 9 (by norm_num)
  have h10 := h 10 (by norm_num)
  have h11 := h 11 (by norm_num)
  have h12 := h 12 (by norm_num)
  have h13 := h 13 (by norm_num)
  have h14 := h 14 (by norm_num)
  have h15 := h 15 (by norm_num)
  have h16 := h 16 (by norm_num)
  simp only [LayoutC.Decode, h0, h1, h2, h3, h5, h6, h7, h8, h9, h10, h11, h12,
    h13, h14, h15, h16]

/-- Witness for layoutC_byte4_irrelevant: two buffers differing only
at index 4 decode to the same record. -/
theorem layoutC_byte4_irrelevant_witness :
    LayoutC.Decode 0 [0, 0, 0, 0, 9] = LayoutC.Decode 0 [0, 0, 0, 0, 7] :=
  layoutC_byte4_irrelevant 0 [0, 0, 0, 0, 9] [0, 0, 0, 0, 7] (by
    intro i hi
    rcases i with _ | _ | _ | _ | _ | i
    · rfl
    · rfl
    · rfl
    · rfl
    · exact absurd rfl hi
    · unfold jsByte
      rw [List.getD_eq_default _ _ (by simp), List.getD_eq_default _ _ (by simp)])

/-- Claim C9: ranges of layout C record fields for byte-valued input:
error and fixed are bits, time is below 2^24, height below 2^16,
precision in [0, 6553.5]; longitude and latitude are a signed 32-bit
two's-complement reading divided by 1000000, hence lie in
[-2147.483648, 2147.483647] and can be negative. -/
theorem layoutC_field_ranges (port : ℕ) (bytes : List ℕ)
    (h : ∀ b ∈ bytes, b < 256) :
    ((LayoutC.Decode port bytes).error = 0 ∨ (LayoutC.Decode port bytes).error = 1) ∧
      ((LayoutC.Decode port bytes).fixed = 0 ∨ (LayoutC.Decode port bytes).fixed = 1) ∧
      (0 ≤ (LayoutC.Decode port bytes).time ∧ (LayoutC.Decode port bytes).time < 2 ^ 24) ∧
      (0 ≤ (LayoutC.Decode port bytes).height ∧
        (LayoutC.Decode port bytes).height < 2 ^ 16) ∧
      (0 ≤ (LayoutC.Decode port bytes).precision ∧
        (LayoutC.Decode port bytes).precision ≤ 65535 / 10) ∧
      ((LayoutC.Decode port bytes).longitude =
          ((asInt32 (jsByte bytes 5 + jsByte bytes 6 * 2 ^ 8 + jsByte bytes 7 * 2 ^ 16 +
            jsByte bytes 8 * 2 ^ 24) : ℤ) : ℚ) / 1000000 ∧
        -(2147483648 : ℚ) / 1000000 ≤ (LayoutC.Decode port bytes).longitude ∧
        (LayoutC.Decode port bytes).longitude ≤ (2147483647 : ℚ) / 1000000) ∧
      ((LayoutC.Decode port bytes).latitude =
          ((asInt32 (jsByte bytes 9 + jsByte bytes 10 * 2 ^ 8 + jsByte bytes 11 * 2 ^ 16 +
            jsByte bytes 12 * 2 ^ 24) : ℤ) : ℚ) / 1000000 ∧
        -(2147483648 : ℚ) / 1000000 ≤ (LayoutC.Decode port bytes).latitude ∧
        (LayoutC.Decode port bytes).latitude ≤ (2147483647 : ℚ) / 1000000) ∧
      (LayoutC.Decode 0 [0, 0, 0, 0, 0, 0, 0, 0, 128]).longitude < 0 := by
  have hb : ∀ i, jsByte bytes i < 256 := fun i => jsByte_lt_256 h i
  obtain ⟨ht, hlon, hlat, hht, hpr⟩ := DecodeC_fields port bytes h
  refine ⟨?_, ?_, ?_, ?_, ?_, ?_, ?_, ?_⟩
  · have hle : (LayoutC.Decode port bytes).error ≤ 1 := by
      simp only [LayoutC.Decode]
      exact Nat.and_le_right
    omega
  · have hle : (LayoutC.Decode port bytes).fixed ≤ 1 := by
      simp only [LayoutC.Decode]
      rw [Nat.shiftRight_eq_div_pow]
      have h2 : u32 (jsByte bytes 0) &&& 2 ≤ 2 := Nat.and_le_right
      norm_num
      omega
    omega
  · rw [ht]
    have e1 := hb 1
    have e2 := hb 2
    have e3 := hb 3
    constructor
    · positivity
    · exact_mod_cast (by norm_num; omega :
        jsByte bytes 1 + jsByte bytes 2 * 2 ^ 8 + jsByte bytes 3 * 2 ^ 16 < 2 ^ 24)
  · rw [hht]
    have e13 := hb 13
    have e14 := hb 14
    constructor
    · positivity
    · exact_mod_cast (by norm_num; omega :
        jsByte bytes 13 + jsByte bytes 14 * 2 ^ 8 < 2 ^ 16)
  · rw [hpr]
    have e15 := hb 15
    have e16 := hb 16
    constructor
    · positivity
    · refine (div_le_div_iff_of_pos_right (by norm_num : (0 : ℚ) < 10)).mpr ?_
      exact_mod_cast (by norm_num; omega :
        jsByte bytes 15 + jsByte bytes 16 * 2 ^ 8 ≤ 65535)
  · refine ⟨hlon, ?_, ?_⟩ <;> rw [hlon]
    · rw [show -(2147483648 : ℚ) / 1000000 = (((-2147483648 : ℤ) : ℚ)) / 1000000 by norm_num]
      refine (div_le_div_iff_of_pos_right (by norm_num : (0 : ℚ) < 1000000)).mpr ?_
      exact_mod_cast (asInt32_range _).1
    · refine (div_le_div_iff_of_pos_right (by norm_num : (0 : ℚ) < 1000000)).mpr ?_
      exact_mod_cast (by have := (asInt32_range (jsByte bytes 5 + jsByte bytes 6 * 2 ^ 8 +
          jsByte bytes 7 * 2 ^ 16 + jsByte bytes 8 * 2 ^ 24)).2; omega :
        asInt32 (jsByte bytes 5 + jsByte bytes 6 * 2 ^ 8 + jsByte bytes 7 * 2 ^ 16 +
          jsByte bytes 8 * 2 ^ 24) ≤ 2147483647)
  · refine ⟨hlat, ?_, ?_⟩ <;> rw [hlat]
    · rw [show -(2147483648 : ℚ) / 1000000 = (((-2147483648 : ℤ) : ℚ)) / 1000000 by norm_num]
      refine (div_le_div_iff_of_pos_right (by norm_num : (0 : ℚ) < 1000000)).mpr ?_
      exact_mod_cast (asInt32_range _).1
    · refine (div_le_div_iff_of_pos_right (by norm_num : (0 : ℚ) < 1000000)).mpr ?_
      exact_mod_cast (by have := (asInt32_range (jsByte bytes 9 + jsByte bytes 10 * 2 ^ 8 +
          jsByte bytes 11 * 2 ^ 16 + jsByte bytes 12 * 2 ^ 24)).2; omega :
        asInt32 (jsByte bytes 9 + jsByte bytes 10 * 2 ^ 8 + jsByte bytes 11 * 2 ^ 16 +
          jsByte bytes 12 * 2 ^ 24) ≤ 2147483647)
  · have hneg := (DecodeC_fields 0 [0, 0, 0, 0, 0, 0, 0, 0, 128] (by decide)).2.1
    rw [hneg]
    rw [show asInt32 (jsByte [0, 0, 0, 0, 0, 0, 0, 0, 128] 5 +
        jsByte [0, 0, 0, 0, 0, 0, 0, 0, 128] 6 * 2 ^ 8 +
        jsByte [0, 0, 0, 0, 0, 0, 0, 0, 128] 7 * 2 ^ 16 +
        jsByte [0, 0, 0, 0, 0, 0, 0, 0, 128] 8 * 2 ^ 24) = -2147483648 from by decide]
    norm_num

/-- Witness for layoutC_field_ranges on a concrete byte buffer. -/
theorem layoutC_field_ranges_witness :
    (LayoutC.Decode 0 [3, 1, 2, 3, 0, 4, 5, 6, 7, 8, 9, 10, 11, 12, 13, 14, 15]).error = 0 ∨
      (LayoutC.Decode 0 [3, 1, 2, 3, 0, 4, 5, 6, 7, 8, 9, 10, 11, 12, 13, 14, 15]).error = 1 :=
  (layoutC_field_ranges 0 [3, 1, 2, 3, 0, 4, 5, 6, 7, 8, 9, 10, 11, 12, 13, 14, 15]
    (by decide)).1

/-! ### Zero extension -/

lemma bytesToFloat_congr {x y : List ℕ} (h : assembleLE32 x = assembleLE32 y) :
    LayoutA.bytesToFloat x = LayoutA.bytesToFloat y := by
  unfold LayoutA.bytesToFloat
  rw [h]

lemma BytesToFloat32_congr {x y : List ℕ} (h : assembleLE32 x = assembleLE32 y) :
    LayoutB.BytesToFloat32 x = LayoutB.BytesToFloat32 y := by
  unfold LayoutB.BytesToFloat32
  rw [h]

/-- Claim C4: for each layout variant, decoding a buffer shorter than
the variant's full length (36, 40 and 17 bytes respectively) yields
exactly the same record as decoding the buffer zero-extended to the
full length: missing bytes behave as zeros, and decoding never
fails. -/
theorem decode_zero_fill (port : ℕ) (l : List ℕ) :
    (l.length < 36 →
      LayoutA.Decode port l = LayoutA.Decode port (l ++ List.replicate (36 - l.length) 0)) ∧
      (l.length < 40 →
        LayoutB.Decode port l = LayoutB.Decode port (l ++ List.replicate (40 - l.length) 0)) ∧
      (l.length < 17 →
        LayoutC.Decode port l = LayoutC.Decode port (l ++ List.replicate (17 - l.length) 0)) := by
  refine ⟨fun h36 => ?_, fun h40 => ?_, fun h17 => ?_⟩
  · have h1 : ∀ a b : ℕ, LayoutA.bytesToFloat (jsSlice l a b) =
        LayoutA.bytesToFloat (jsSlice (l ++ List.replicate (36 - l.length) 0) a b) :=
      fun a b => bytesToFloat_congr (assembleLE32_slice_append_zeros l (36 - l.length) a b).symm
    simp only [LayoutA.Decode, h1]
  · have h1 : ∀ a b : ℕ, LayoutB.BytesToFloat32 (jsSlice l a b) =
        LayoutB.BytesToFloat32 (jsSlice (l ++ List.replicate (40 - l.length) 0) a b) :=
      fun a b => BytesToFloat32_congr (assembleLE32_slice_append_zeros l (40 - l.length) a b).symm
    simp only [LayoutB.Decode, h1]
  · simp only [LayoutC.Decode, jsByte_append_zeros]

/-- Witness for decode_zero_fill: the one-byte buffer 0x01 under each
variant decodes like its zero-extension. -/
theorem decode_zero_fill_witness :
    LayoutA.Decode 0 [1] = LayoutA.Decode 0 ([1] ++ List.replicate 35 0) :=
  (decode_zero_fill 0 [1]).1 (by norm_num)
